import Mathlib

/-!
Verification development for the pandas dataframe agent assembly module
(`langchain_experimental/agents/agent_toolkits/pandas/base.py`).

The Python module is shallowly embedded below.  Dataframes are modelled by
their list of rendered rows; the Python `Optional` arguments become `Option`;
the `raise ValueError(...)` sites become values of `AgentError` (named after
the error taxonomy, one constructor per distinct message); the entry point and
the two validating helpers return `Except`.  External library collaborators
(`ZeroShotAgent.create_prompt`, `BasePromptTemplate.partial`,
`OpenAIFunctionsAgent.create_prompt`, the agent constructors and
`AgentExecutor.from_agent_and_tools`) are modelled through their narrow
observable interface: a prompt template records its prefix, suffix, tool list,
input variables and partial bindings; a functions prompt records its system
message string; an agent records the prompt and the tool list it was
constructed with.  The pandas import always succeeds in this model, and the
opaque pass-through execution-loop knobs (llm, callbacks, verbosity, iteration
and time budgets) are omitted since no claim observes them.
-/

namespace PandasAgent

/-- A pandas DataFrame, modelled as the list of its rendered rows. -/
structure DataFrame where
  rows : List String
deriving DecidableEq

/-- Python `df.head(n)`: the dataframe of the first `n` rows. -/
def DataFrame.head (d : DataFrame) (n : Nat) : DataFrame :=
  ⟨d.rows.take n⟩

/-- Python `df.to_markdown()`: render the dataframe to a text block. -/
def DataFrame.to_markdown (d : DataFrame) : String :=
  String.intercalate "\n" d.rows

/-- A Python runtime value that may be passed where a dataframe is expected:
either an actual `DataFrame` or some other object (identified by the name of
its type, which only matters for the `isinstance` checks). -/
inductive PyObj where
  | df (d : DataFrame)
  | other (typeName : String)
deriving DecidableEq

/-- The dynamic `df` argument of the assembly entry point: a bare object or a
Python list of objects (`isinstance(df, list)` distinguishes the two). -/
inductive DfArg where
  | single (obj : PyObj)
  | listed (items : List PyObj)
deriving DecidableEq

/-- A tool given to the agent: the dataset-bound `PythonAstREPLTool` created by
the assembly (carrying its `locals` variable-binding mapping), or a
caller-supplied extra tool (opaque, identified by an id). -/
inductive Tool where
  | repl (locals : List (String × DataFrame))
  | ext (id : Nat)
deriving DecidableEq

/-- The error taxonomy of the module: one constructor per distinct
`raise ValueError(...)` site reachable from the entry point.
`configurationConflict` is "If suffix is specified, include_df_in_prompt
should not be."; `typeMismatch` is "Expected pandas object, got ...";
`unsupportedOption` is "`input_variables` is not supported at the moment.";
`unsupportedProtocol` is "Agent type ... not supported at the moment.". -/
inductive AgentError where
  | configurationConflict
  | typeMismatch
  | unsupportedOption
  | unsupportedProtocol
deriving DecidableEq

/-- A text-action prompt template (result of `ZeroShotAgent.create_prompt`
followed by `.partial(...)` calls): the prefix and suffix texts, the tool
list it was built over, its input variables, and the partially bound
variables in insertion order. -/
structure PromptTemplate where
  pre : String
  suffix : String
  tools : List Tool
  input_variables : List String
  filled : List (String × String)
deriving DecidableEq

/-- Models `BasePromptTemplate.partial(key=value)`: bind one variable,
overwriting any previous binding of the same key (Python dict update). -/
def PromptTemplate.fill (p : PromptTemplate) (key value : String) : PromptTemplate :=
  { p with filled := p.filled.filter (fun q => q.1 != key) ++ [(key, value)] }

/-- A function-call prompt (result of `OpenAIFunctionsAgent.create_prompt`):
just the flattened system message string. -/
structure FunctionsPrompt where
  systemMessage : String
deriving DecidableEq

/-- Modelled from the spec: built-in single-dataframe text-action prompt
suffix with a preview slot, from the prompt template module (not under src).
The exact wording is immaterial to the claims; only the placeholder matters. -/
def SUFFIX_WITH_DF : String := "This is the result of print(df.head()): \x7bdf_head\x7d"

/-- Modelled from the spec: built-in multi-dataframe text-action prompt suffix
with a preview slot (prompt template module, not under src). -/
def SUFFIX_WITH_MULTI_DF : String := "Print of each dataframe head: \x7bdfs_head\x7d"

/-- Modelled from the spec: built-in text-action prompt suffix without any
dataframe preview (prompt template module, not under src). -/
def SUFFIX_NO_DF : String := "Begin!"

/-- Modelled from the spec: built-in single-dataframe text-action prompt
prefix (prompt template module, not under src). -/
def PREFIX0 : String := "You are working with a pandas dataframe df. "

/-- Modelled from the spec: built-in multi-dataframe text-action prompt
prefix (prompt template module, not under src). -/
def MULTI_DF_PREFIX0 : String := "You are working with \x7bnum_dfs\x7d dataframes. "

/-- Modelled from the spec: built-in function-call single-dataframe system
message prefix (prompt template module, not under src). -/
def PREFIX_FUNCTIONS : String := "You are working with a pandas dataframe df. "

/-- Modelled from the spec: built-in function-call multi-dataframe system
message prefix with the dataset-count slot (prompt template module, not
under src). -/
def MULTI_DF_PREFIX_FUNCTIONS : String := "You are working with \x7bnum_dfs\x7d dataframes. "

/-- Modelled from the spec: built-in function-call single-dataframe preview
suffix with the preview slot (prompt template module, not under src). -/
def FUNCTIONS_WITH_DF : String := "This is the result of print(df.head()): \x7bdf_head\x7d"

/-- Modelled from the spec: built-in function-call multi-dataframe preview
suffix with the preview slot (prompt template module, not under src). -/
def FUNCTIONS_WITH_MULTI_DF : String := "Print of each dataframe head: \x7bdfs_head\x7d"

/-- Boolean test that `pat` is a prefix of the second character list. -/
def charsPrefixOf : List Char → List Char → Bool
  | [], _ => true
  | _ :: _, [] => false
  | a :: as, b :: bs => a == b && charsPrefixOf as bs

/-- Replace every occurrence of `pat` (left to right, non-overlapping) by
`rep` in a character list. -/
def replaceFrom (pat rep : List Char) : List Char → List Char
  | [] => []
  | c :: t =>
    if charsPrefixOf pat (c :: t) then rep ++ replaceFrom pat rep (t.drop (pat.length - 1))
    else c :: replaceFrom pat rep t
termination_by l => l.length
decreasing_by
  · simp [List.length_drop]; omega
  · simp

/-- Models Python `s.format(key=value)` as used in this module: every
occurrence of the placeholder for `key` in `s` is replaced by `value` (each
template involved carries at most this one placeholder). -/
def formatVar (s key value : String) : String :=
  String.mk (replaceFrom ("\x7b" ++ key ++ "\x7d").toList value.toList s.toList)

/-- The `for i, dataframe in enumerate(dfs): df_locals[f"df{i+1}"] = dataframe`
loop, generalized over the starting index. -/
def dfLocalsFrom : Nat → List DataFrame → List (String × DataFrame)
  | _, [] => []
  | i, d :: rest => ("df" ++ toString (i + 1), d) :: dfLocalsFrom (i + 1) rest

/-- The `df_locals` mapping built for a list of dataframes: keys
`df1 .. dfN` in dataframe order. -/
def dfLocals (dfs : List DataFrame) : List (String × DataFrame) :=
  dfLocalsFrom 0 dfs

/-- The joined multi-dataframe preview:
`"\n\n".join([d.head(k).to_markdown() for d in dfs])`. -/
def dfsHeadText (dfs : List DataFrame) (k : Nat) : String :=
  String.intercalate "\n\n" (dfs.map (fun d => DataFrame.to_markdown (DataFrame.head d k)))

/-- The suffix selection of `_get_multi_prompt`: the suffix text to use and
whether the dataframe preview is to be included (`include_dfs_head`). -/
def multiSuffixChoice (suffix : Option String) (include_df_in_prompt : Option Bool) :
    String × Bool :=
  match suffix with
  | some s => (s, true)
  | none =>
    if include_df_in_prompt.getD false then (SUFFIX_WITH_MULTI_DF, true)
    else (SUFFIX_NO_DF, false)

/-- The input-variable resolution of `_get_multi_prompt` when the caller list
is absent: `["input", "agent_scratchpad", "num_dfs"]`, extended with
`"dfs_head"` when the preview is included. -/
def resolveMultiVars (input_variables : Option (List String)) (include_dfs_head : Bool) :
    List String :=
  match input_variables with
  | some v => v
  | none => ["input", "agent_scratchpad", "num_dfs"] ++ (if include_dfs_head then ["dfs_head"] else [])

/-- The partial-binding tail of `_get_multi_prompt`: bind `num_dfs` and
`dfs_head` when `"dfs_head"` is among the input variables, then bind
`num_dfs` when `"num_dfs"` is among the input variables. -/
def applyMultiPartials (p : PromptTemplate) (dfs : List DataFrame) (k : Nat) :
    PromptTemplate :=
  let p1 :=
    if p.input_variables.contains "dfs_head" then
      PromptTemplate.fill
        (PromptTemplate.fill p "num_dfs" (toString dfs.length))
        "dfs_head" (dfsHeadText dfs k)
    else p
  if p.input_variables.contains "num_dfs" then
    PromptTemplate.fill p1 "num_dfs" (toString dfs.length)
  else p1

/-- Embedding of `_get_multi_prompt`. -/
def _get_multi_prompt (dfs : List DataFrame) (pre suffix : Option String)
    (input_variables : Option (List String)) (include_df_in_prompt : Option Bool)
    (number_of_head_rows : Nat) (extra_tools : List Tool) :
    PromptTemplate × List Tool :=
  let choice := multiSuffixChoice suffix include_df_in_prompt
  let vars := resolveMultiVars input_variables choice.2
  let tools := Tool.repl (dfLocals dfs) :: extra_tools
  let prompt : PromptTemplate :=
    { pre := pre.getD MULTI_DF_PREFIX0
      suffix := choice.1
      tools := tools
      input_variables := vars
      filled := [] }
  (applyMultiPartials prompt dfs number_of_head_rows, tools)

/-- The suffix selection of `_get_single_prompt`. -/
def singleSuffixChoice (suffix : Option String) (include_df_in_prompt : Option Bool) :
    String × Bool :=
  match suffix with
  | some s => (s, true)
  | none =>
    if include_df_in_prompt.getD false then (SUFFIX_WITH_DF, true)
    else (SUFFIX_NO_DF, false)

/-- The input-variable resolution of `_get_single_prompt` when the caller list
is absent: `["input", "agent_scratchpad"]`, extended with `"df_head"` when
the preview is included. -/
def resolveSingleVars (input_variables : Option (List String)) (include_df_head : Bool) :
    List String :=
  match input_variables with
  | some v => v
  | none => ["input", "agent_scratchpad"] ++ (if include_df_head then ["df_head"] else [])

/-- Embedding of `_get_single_prompt`. -/
def _get_single_prompt (d : DataFrame) (pre suffix : Option String)
    (input_variables : Option (List String)) (include_df_in_prompt : Option Bool)
    (number_of_head_rows : Nat) (extra_tools : List Tool) :
    PromptTemplate × List Tool :=
  let choice := singleSuffixChoice suffix include_df_in_prompt
  let vars := resolveSingleVars input_variables choice.2
  let tools := Tool.repl [("df", d)] :: extra_tools
  let prompt : PromptTemplate :=
    { pre := pre.getD PREFIX0
      suffix := choice.1
      tools := tools
      input_variables := vars
      filled := [] }
  let prompt2 :=
    if vars.contains "df_head" then
      PromptTemplate.fill prompt "df_head"
        (DataFrame.to_markdown (DataFrame.head d number_of_head_rows))
    else prompt
  (prompt2, tools)

/-- The element-wise `isinstance(item, pd.DataFrame)` validation of a Python
list argument: `some dfs` when every element is a dataframe (in order),
`none` as soon as one is not. -/
def asDataFrames : List PyObj → Option (List DataFrame)
  | [] => some []
  | PyObj.df d :: rest => (asDataFrames rest).map (fun l => d :: l)
  | PyObj.other _ :: _ => none

/-- Embedding of `_get_prompt_and_tools` (text-action protocol): the
suffix/include-preview conflict check, the dynamic type dispatch, and the
per-cardinality prompt assembly. -/
def _get_prompt_and_tools (df : DfArg) (pre suffix : Option String)
    (input_variables : Option (List String)) (include_df_in_prompt : Option Bool)
    (number_of_head_rows : Nat) (extra_tools : List Tool) :
    Except AgentError (PromptTemplate × List Tool) :=
  if include_df_in_prompt.isSome && suffix.isSome then
    .error AgentError.configurationConflict
  else
    match df with
    | DfArg.listed items =>
      match asDataFrames items with
      | none => .error AgentError.typeMismatch
      | some dfs =>
        .ok (_get_multi_prompt dfs pre suffix input_variables include_df_in_prompt
          number_of_head_rows extra_tools)
    | DfArg.single obj =>
      match obj with
      | PyObj.df d =>
        .ok (_get_single_prompt d pre suffix input_variables include_df_in_prompt
          number_of_head_rows extra_tools)
      | PyObj.other _ => .error AgentError.typeMismatch

/-- Embedding of `_get_functions_single_prompt`. -/
def _get_functions_single_prompt (d : DataFrame) (pre suffix : Option String)
    (include_df_in_prompt : Option Bool) (number_of_head_rows : Nat) :
    FunctionsPrompt × List Tool :=
  let suffix_to_use :=
    match suffix with
    | some s =>
      if include_df_in_prompt.getD false then
        formatVar s "df_head" (DataFrame.to_markdown (DataFrame.head d number_of_head_rows))
      else s
    | none =>
      if include_df_in_prompt.getD false then
        formatVar FUNCTIONS_WITH_DF "df_head"
          (DataFrame.to_markdown (DataFrame.head d number_of_head_rows))
      else ""
  ({ systemMessage := pre.getD PREFIX_FUNCTIONS ++ suffix_to_use },
   [Tool.repl [("df", d)]])

/-- Embedding of `_get_functions_multi_prompt`.  Note the fixed substitution
order: the suffix preview substitution happens first, then the prefix
dataset-count substitution (applied to the caller prefix as well). -/
def _get_functions_multi_prompt (dfs : List DataFrame) (pre suffix : Option String)
    (include_df_in_prompt : Option Bool) (number_of_head_rows : Nat) :
    FunctionsPrompt × List Tool :=
  let suffix_to_use :=
    match suffix with
    | some s =>
      if include_df_in_prompt.getD false then
        formatVar s "dfs_head" (dfsHeadText dfs number_of_head_rows)
      else s
    | none =>
      if include_df_in_prompt.getD false then
        formatVar FUNCTIONS_WITH_MULTI_DF "dfs_head" (dfsHeadText dfs number_of_head_rows)
      else ""
  let preUse := formatVar (pre.getD MULTI_DF_PREFIX_FUNCTIONS) "num_dfs" (toString dfs.length)
  ({ systemMessage := preUse ++ suffix_to_use },
   [Tool.repl (dfLocals dfs)])

/-- Embedding of `_get_functions_prompt_and_tools` (function-call protocols):
the input-variable rejection, the suffix/include-preview conflict check, the
dynamic type dispatch, and the per-cardinality prompt assembly. -/
def _get_functions_prompt_and_tools (df : DfArg) (pre suffix : Option String)
    (input_variables : Option (List String)) (include_df_in_prompt : Option Bool)
    (number_of_head_rows : Nat) :
    Except AgentError (FunctionsPrompt × List Tool) :=
  if input_variables.isSome then
    .error AgentError.unsupportedOption
  else if include_df_in_prompt.isSome && suffix.isSome then
    .error AgentError.configurationConflict
  else
    match df with
    | DfArg.listed items =>
      match asDataFrames items with
      | none => .error AgentError.typeMismatch
      | some dfs =>
        .ok (_get_functions_multi_prompt dfs pre suffix include_df_in_prompt
          number_of_head_rows)
    | DfArg.single obj =>
      match obj with
      | PyObj.df d =>
        .ok (_get_functions_single_prompt d pre suffix include_df_in_prompt
          number_of_head_rows)
      | PyObj.other _ => .error AgentError.typeMismatch

/-- A constructed agent: the strategy used, the prompt, and the tool list the
agent constructor received. -/
inductive Agent where
  | react (prompt : PromptTemplate) (tools : List Tool)
  | openaiFunctions (prompt : FunctionsPrompt) (tools : List Tool)
  | openaiTools (prompt : FunctionsPrompt) (tools : List Tool)
deriving DecidableEq

/-- The executor returned by `AgentExecutor.from_agent_and_tools`: the agent
and the final tool list (the opaque loop-tuning knobs are omitted). -/
structure AgentExecutor where
  agent : Agent
  tools : List Tool
deriving DecidableEq

/-- The `AgentType.ZERO_SHOT_REACT_DESCRIPTION` protocol identifier value. -/
def AGENT_ZERO_SHOT : String := "zero-shot-react-description"

/-- The `AgentType.OPENAI_FUNCTIONS` protocol identifier value. -/
def AGENT_OPENAI_FUNCTIONS : String := "openai-functions"

/-- The `"openai-tools"` protocol identifier value. -/
def AGENT_OPENAI_TOOLS : String := "openai-tools"

/-- The declared default of the `include_df_in_prompt` keyword of the entry
point (`Optional[bool] = True`). -/
def includeDfInPromptDefault : Option Bool := some true

/-- Embedding of `create_pandas_dataframe_agent`: dispatch on the protocol
identifier, assemble prompt and tools, construct the protocol-specific agent
(for the function-call protocols the extra tools are merged into the tool
list before the agent constructor is called), and wrap agent and final tool
list into the executor. -/
def create_pandas_dataframe_agent (df : DfArg) (agent_type : String)
    (pre suffix : Option String) (input_variables : Option (List String))
    (include_df_in_prompt : Option Bool) (number_of_head_rows : Nat)
    (extra_tools : List Tool) : Except AgentError AgentExecutor :=
  if agent_type = AGENT_ZERO_SHOT then
    (_get_prompt_and_tools df pre suffix input_variables include_df_in_prompt
        number_of_head_rows extra_tools).map
      (fun r => { agent := Agent.react r.1 r.2, tools := r.2 })
  else if agent_type = AGENT_OPENAI_FUNCTIONS then
    (_get_functions_prompt_and_tools df pre suffix input_variables include_df_in_prompt
        number_of_head_rows).map
      (fun r =>
        let tools := r.2 ++ extra_tools
        { agent := Agent.openaiFunctions r.1 tools, tools := tools })
  else if agent_type = AGENT_OPENAI_TOOLS then
    (_get_functions_prompt_and_tools df pre suffix input_variables include_df_in_prompt
        number_of_head_rows).map
      (fun r =>
        let tools := r.2 ++ extra_tools
        { agent := Agent.openaiTools r.1 tools, tools := tools })
  else .error AgentError.unsupportedProtocol

/-- Convenience: wrap a list of dataframes as the Python list argument. -/
def dfArgOf (dfs : List DataFrame) : DfArg :=
  DfArg.listed (dfs.map PyObj.df)

/-- The variable-binding keys of the execution tool at the head of a tool
list (empty when the head is not the execution tool). -/
def bindingKeys : List Tool → List String
  | Tool.repl l :: _ => l.map Prod.fst
  | _ => []

/-- Whether an assembly result is a success. -/
def isOkB : Except AgentError AgentExecutor → Bool
  | .ok _ => true
  | .error _ => false

/-- The final tool list of a successful assembly (empty on failure). -/
def resultTools : Except AgentError AgentExecutor → List Tool
  | .ok e => e.tools
  | .error _ => []

/-- The tool list the agent constructor received (empty on failure). -/
def agentTools : Except AgentError AgentExecutor → List Tool
  | .ok e =>
    match e.agent with
    | Agent.react _ t => t
    | Agent.openaiFunctions _ t => t
    | Agent.openaiTools _ t => t
  | .error _ => []

/-- The input variables of the text-action prompt of an executor (empty for
function-call agents). -/
def AgentExecutor.promptInputVars (e : AgentExecutor) : List String :=
  match e.agent with
  | Agent.react p _ => p.input_variables
  | _ => []

/-- The partially bound variable names of the text-action prompt of an
executor (empty for function-call agents). -/
def AgentExecutor.promptFilledKeys (e : AgentExecutor) : List String :=
  match e.agent with
  | Agent.react p _ => p.filled.map Prod.fst
  | _ => []

/-- The system message of a function-call executor (none for text-action). -/
def AgentExecutor.systemMsg (e : AgentExecutor) : Option String :=
  match e.agent with
  | Agent.openaiFunctions p _ => some p.systemMessage
  | Agent.openaiTools p _ => some p.systemMessage
  | Agent.react _ _ => none

/- ### Helper lemmas shared by the claim theorems -/

/-- A list argument whose elements are all dataframes validates to exactly
those dataframes, in order. -/
theorem asDataFrames_map (dfs : List DataFrame) :
    asDataFrames (dfs.map PyObj.df) = some dfs := by
  induction dfs with
  | nil => rfl
  | cons d t ih => simp [asDataFrames, ih]

/-- Keys of the enumerate loop, generalized over the starting index. -/
theorem dfLocalsFrom_keys (dfs : List DataFrame) :
    ∀ n, (dfLocalsFrom n dfs).map Prod.fst
      = (List.range' n dfs.length).map (fun i => "df" ++ toString (i + 1)) := by
  induction dfs with
  | nil => intro n; rfl
  | cons d t ih =>
    intro n
    simp [dfLocalsFrom, List.range', ih (n + 1)]

/-- The binding keys of `df_locals` are `df1 .. dfN` in order. -/
theorem dfLocals_keys (dfs : List DataFrame) :
    (dfLocals dfs).map Prod.fst
      = (List.range dfs.length).map (fun i => "df" ++ toString (i + 1)) := by
  rw [dfLocals, dfLocalsFrom_keys, List.range_eq_range']

/-- Boolean infix test on character lists. -/
def charsInfixOf (sub : List Char) : List Char → Bool
  | [] => charsPrefixOf sub []
  | c :: t => charsPrefixOf sub (c :: t) || charsInfixOf sub t

/-- Whether `sub` occurs as a contiguous substring of `s`. -/
def strContains (s sub : String) : Bool :=
  charsInfixOf sub.toList s.toList

/- ### Claim C1 -/

/-- C1 counterexample: a single dataset passed as a one-element collection is
routed to the multi-dataframe path and bound under the key `df1`, not `df`,
so the binding keys are not independent of how the single dataset was
passed. -/
theorem C1_counterexample :
    (create_pandas_dataframe_agent (DfArg.listed [PyObj.df ⟨["r"]⟩]) AGENT_ZERO_SHOT
        none none none (some true) 5 []).map (fun e => bindingKeys e.tools)
      = Except.ok ["df1"]
    ∧ (["df1"] : List String) ≠ ["df"] := by
  constructor
  · rfl
  · decide

/-- C1 amended: for every protocol, a dataset passed bare is bound under
exactly the key `df`, and a collection of N datasets (even a one-element
collection) is bound under exactly the keys `df1 .. dfN` in collection
order. -/
theorem C1_amended (d : DataFrame) (dfs : List DataFrame) (pre : Option String)
    (inc : Option Bool) (k : Nat) (xt : List Tool) :
    ((create_pandas_dataframe_agent (DfArg.single (PyObj.df d)) AGENT_ZERO_SHOT
        pre none none inc k xt).map (fun e => bindingKeys e.tools) = Except.ok ["df"]
      ∧ (create_pandas_dataframe_agent (DfArg.single (PyObj.df d)) AGENT_OPENAI_FUNCTIONS
        pre none none inc k xt).map (fun e => bindingKeys e.tools) = Except.ok ["df"]
      ∧ (create_pandas_dataframe_agent (DfArg.single (PyObj.df d)) AGENT_OPENAI_TOOLS
        pre none none inc k xt).map (fun e => bindingKeys e.tools) = Except.ok ["df"])
    ∧ ((create_pandas_dataframe_agent (dfArgOf dfs) AGENT_ZERO_SHOT
        pre none none inc k xt).map (fun e => bindingKeys e.tools)
          = Except.ok ((List.range dfs.length).map (fun i => "df" ++ toString (i + 1)))
      ∧ (create_pandas_dataframe_agent (dfArgOf dfs) AGENT_OPENAI_FUNCTIONS
        pre none none inc k xt).map (fun e => bindingKeys e.tools)
          = Except.ok ((List.range dfs.length).map (fun i => "df" ++ toString (i + 1)))
      ∧ (create_pandas_dataframe_agent (dfArgOf dfs) AGENT_OPENAI_TOOLS
        pre none none inc k xt).map (fun e => bindingKeys e.tools)
          = Except.ok ((List.range dfs.length).map (fun i => "df" ++ toString (i + 1)))) := by
  refine ⟨⟨?_, ?_, ?_⟩, ?_, ?_, ?_⟩ <;>
    simp [create_pandas_dataframe_agent, AGENT_ZERO_SHOT, AGENT_OPENAI_FUNCTIONS,
      AGENT_OPENAI_TOOLS, _get_prompt_and_tools, _get_functions_prompt_and_tools,
      dfArgOf, asDataFrames_map, _get_single_prompt, _get_multi_prompt,
      _get_functions_single_prompt, _get_functions_multi_prompt,
      bindingKeys, dfLocals_keys, Except.map]

/- ### Claim C2 -/

/-- C2: for each of the three protocols and every dataset argument (any
cardinality), supplying a non-null suffix together with an explicitly set
include-preview flag (either value) fails with the configuration-conflict
error, so no agent is produced. -/
theorem C2_suffix_preview_conflict (df : DfArg) (pre : Option String) (s : String)
    (b : Bool) (k : Nat) (xt : List Tool) :
    create_pandas_dataframe_agent df AGENT_ZERO_SHOT pre (some s) none (some b) k xt
        = Except.error AgentError.configurationConflict
    ∧ create_pandas_dataframe_agent df AGENT_OPENAI_FUNCTIONS pre (some s) none (some b) k xt
        = Except.error AgentError.configurationConflict
    ∧ create_pandas_dataframe_agent df AGENT_OPENAI_TOOLS pre (some s) none (some b) k xt
        = Except.error AgentError.configurationConflict := by
  refine ⟨?_, ?_, ?_⟩ <;>
    simp [create_pandas_dataframe_agent, AGENT_ZERO_SHOT, AGENT_OPENAI_FUNCTIONS,
      AGENT_OPENAI_TOOLS, _get_prompt_and_tools, _get_functions_prompt_and_tools, Except.map]

/- ### Claim C3 -/

/-- C3 counterexample: under the legacy function-call protocol a caller
suffix is only accepted with the include-preview flag unset, and then the
preview substitution is skipped entirely: the system message is the built-in
prefix followed by the raw caller suffix, and the rendered head of the
dataset does not occur anywhere in it, so the preview is not included. -/
theorem C3_counterexample :
    (create_pandas_dataframe_agent (DfArg.single (PyObj.df ⟨["ROWZ"]⟩)) AGENT_OPENAI_FUNCTIONS
        none (some "SUF") none none 5 []).map AgentExecutor.systemMsg
      = Except.ok (some (PREFIX_FUNCTIONS ++ "SUF"))
    ∧ strContains (PREFIX_FUNCTIONS ++ "SUF")
        (DataFrame.to_markdown (DataFrame.head ⟨["ROWZ"]⟩ 5)) = false := by
  constructor
  · rfl
  · rfl

/-- C3 amended: when a caller suffix is given and assembly succeeds (which
forces the include-preview flag to be unset), the suffix text is used
verbatim in every protocol family; for the text-action protocol with a
defaulted input-variable list the preview is rendered and partially bound
into the prompt, but for the function-call protocols no preview is
substituted: the system message is the (count-substituted) prefix followed by
the raw caller suffix. -/
theorem C3_amended (d : DataFrame) (dfs : List DataFrame) (s : String) (k : Nat)
    (xt : List Tool) :
    _get_prompt_and_tools (DfArg.single (PyObj.df d)) none (some s) none none k xt
      = Except.ok
          ({ pre := PREFIX0, suffix := s,
             tools := Tool.repl [("df", d)] :: xt,
             input_variables := ["input", "agent_scratchpad", "df_head"],
             filled := [("df_head", DataFrame.to_markdown (DataFrame.head d k))] },
           Tool.repl [("df", d)] :: xt)
    ∧ _get_prompt_and_tools (dfArgOf dfs) none (some s) none none k xt
      = Except.ok
          ({ pre := MULTI_DF_PREFIX0, suffix := s,
             tools := Tool.repl (dfLocals dfs) :: xt,
             input_variables := ["input", "agent_scratchpad", "num_dfs", "dfs_head"],
             filled := [("dfs_head", dfsHeadText dfs k), ("num_dfs", toString dfs.length)] },
           Tool.repl (dfLocals dfs) :: xt)
    ∧ _get_functions_prompt_and_tools (DfArg.single (PyObj.df d)) none (some s) none none k
      = Except.ok ({ systemMessage := PREFIX_FUNCTIONS ++ s }, [Tool.repl [("df", d)]])
    ∧ _get_functions_prompt_and_tools (dfArgOf dfs) none (some s) none none k
      = Except.ok
          ({ systemMessage :=
               formatVar MULTI_DF_PREFIX_FUNCTIONS "num_dfs" (toString dfs.length) ++ s },
           [Tool.repl (dfLocals dfs)]) := by
  refine ⟨?_, ?_, ?_, ?_⟩ <;>
    simp [_get_prompt_and_tools, _get_functions_prompt_and_tools, dfArgOf, asDataFrames_map,
      _get_single_prompt, _get_multi_prompt, _get_functions_single_prompt,
      _get_functions_multi_prompt, singleSuffixChoice, multiSuffixChoice,
      resolveSingleVars, resolveMultiVars, applyMultiPartials, PromptTemplate.fill]

/- ### Claim C4 -/

/-- C4 counterexample: an empty collection passed as the dataset argument is
not rejected by validation; the assembly entry point succeeds and constructs
an agent over zero datasets. -/
theorem C4_counterexample :
    isOkB (create_pandas_dataframe_agent (DfArg.listed []) AGENT_ZERO_SHOT
      none none none (some true) 5 []) = true := by
  rfl

/-- C4 amended: validation does not reject an empty dataset collection; for
every protocol an empty collection is routed through the multi-dataset path
and yields an agent whose execution tool carries an empty variable-binding
map. -/
theorem C4_amended (pre : Option String) (inc : Option Bool) (k : Nat) (xt : List Tool) :
    (create_pandas_dataframe_agent (DfArg.listed []) AGENT_ZERO_SHOT
        pre none none inc k xt).map (fun e => bindingKeys e.tools) = Except.ok []
    ∧ (create_pandas_dataframe_agent (DfArg.listed []) AGENT_OPENAI_FUNCTIONS
        pre none none inc k xt).map (fun e => bindingKeys e.tools) = Except.ok []
    ∧ (create_pandas_dataframe_agent (DfArg.listed []) AGENT_OPENAI_TOOLS
        pre none none inc k xt).map (fun e => bindingKeys e.tools) = Except.ok [] := by
  refine ⟨?_, ?_, ?_⟩ <;>
    simp [create_pandas_dataframe_agent, AGENT_ZERO_SHOT, AGENT_OPENAI_FUNCTIONS,
      AGENT_OPENAI_TOOLS, _get_prompt_and_tools, _get_functions_prompt_and_tools,
      asDataFrames, _get_multi_prompt, _get_functions_multi_prompt, bindingKeys,
      dfLocals, dfLocalsFrom, Except.map]

/- ### Claim C5 -/

/-- C5 counterexample: for the text-action protocol with two datasets,
preview excluded and no caller input-variable list, the resolved
input-variable list still contains `num_dfs`, so it is not the bare default
`["input", "agent_scratchpad"]` that the claim predicts for the
preview-excluded case. -/
theorem C5_counterexample :
    (create_pandas_dataframe_agent (DfArg.listed [PyObj.df ⟨["a"]⟩, PyObj.df ⟨["b"]⟩])
        AGENT_ZERO_SHOT none none none (some false) 5 []).map AgentExecutor.promptInputVars
      = Except.ok ["input", "agent_scratchpad", "num_dfs"]
    ∧ (["input", "agent_scratchpad", "num_dfs"] : List String)
        ≠ ["input", "agent_scratchpad"] := by
  exact ⟨rfl, by decide⟩

/-- C5 amended: for the text-action protocol without a caller-supplied
input-variable list (and no suffix), the resolved list is
`["input", "agent_scratchpad"]` extended with `"df_head"` exactly when the
preview is included in the single-dataset case, and
`["input", "agent_scratchpad", "num_dfs"]` (the `num_dfs` entry is present
regardless of the preview) extended with `"dfs_head"` exactly when the
preview is included in the multi-dataset case. -/
theorem C5_amended (d : DataFrame) (dfs : List DataFrame) (pre : Option String)
    (inc : Option Bool) (k : Nat) (xt : List Tool) :
    (create_pandas_dataframe_agent (DfArg.single (PyObj.df d)) AGENT_ZERO_SHOT
        pre none none inc k xt).map AgentExecutor.promptInputVars
      = Except.ok (["input", "agent_scratchpad"]
          ++ (if inc.getD false then ["df_head"] else []))
    ∧ (create_pandas_dataframe_agent (dfArgOf dfs) AGENT_ZERO_SHOT
        pre none none inc k xt).map AgentExecutor.promptInputVars
      = Except.ok (["input", "agent_scratchpad", "num_dfs"]
          ++ (if inc.getD false then ["dfs_head"] else [])) := by
  by_cases hb : inc.getD false <;>
    constructor <;>
      simp [hb, create_pandas_dataframe_agent, AGENT_ZERO_SHOT, _get_prompt_and_tools,
        dfArgOf, asDataFrames_map, _get_single_prompt, _get_multi_prompt,
        singleSuffixChoice, multiSuffixChoice, resolveSingleVars, resolveMultiVars,
        applyMultiPartials, PromptTemplate.fill, AgentExecutor.promptInputVars, Except.map]

/- ### Claim C6 -/

/-- C6: for every protocol identifier other than the three known values, the
assembly entry point fails with the unsupported-protocol error, so no tool
bindings and no agent are produced. -/
theorem C6_unknown_protocol (df : DfArg) (aty : String) (pre suffix : Option String)
    (iv : Option (List String)) (inc : Option Bool) (k : Nat) (xt : List Tool)
    (h1 : aty ≠ AGENT_ZERO_SHOT) (h2 : aty ≠ AGENT_OPENAI_FUNCTIONS)
    (h3 : aty ≠ AGENT_OPENAI_TOOLS) :
    create_pandas_dataframe_agent df aty pre suffix iv inc k xt
      = Except.error AgentError.unsupportedProtocol := by
  rw [create_pandas_dataframe_agent, if_neg h1, if_neg h2, if_neg h3]

/-- C6 witness: the unknown protocol identifier `"foo"` is rejected. -/
theorem C6_witness :
    ("foo" ≠ AGENT_ZERO_SHOT ∧ "foo" ≠ AGENT_OPENAI_FUNCTIONS ∧ "foo" ≠ AGENT_OPENAI_TOOLS)
    ∧ create_pandas_dataframe_agent (DfArg.listed []) "foo" none none none none 5 []
        = Except.error AgentError.unsupportedProtocol :=
  ⟨⟨by decide, by decide, by decide⟩,
   C6_unknown_protocol (DfArg.listed []) "foo" none none none none 5 []
     (by decide) (by decide) (by decide)⟩

/- ### Claim C7 -/

/-- C7: for both function-call protocols, supplying an explicit
input-variable list fails with the unsupported-option error, for every
dataset argument and every other option. -/
theorem C7_input_variables_rejected (df : DfArg) (pre suffix : Option String)
    (v : List String) (inc : Option Bool) (k : Nat) (xt : List Tool) :
    create_pandas_dataframe_agent df AGENT_OPENAI_FUNCTIONS pre suffix (some v) inc k xt
        = Except.error AgentError.unsupportedOption
    ∧ create_pandas_dataframe_agent df AGENT_OPENAI_TOOLS pre suffix (some v) inc k xt
        = Except.error AgentError.unsupportedOption := by
  constructor <;>
    simp [create_pandas_dataframe_agent, AGENT_ZERO_SHOT, AGENT_OPENAI_FUNCTIONS,
      AGENT_OPENAI_TOOLS, _get_functions_prompt_and_tools, Except.map]

/- ### Claim C8 -/

/-- Every successful text-action assembly returns the execution tool followed
by the extra tools. -/
theorem text_tools_shape (df : DfArg) (pre suffix : Option String)
    (iv : Option (List String)) (inc : Option Bool) (k : Nat) (xt : List Tool)
    (r : PromptTemplate × List Tool)
    (h : _get_prompt_and_tools df pre suffix iv inc k xt = Except.ok r) :
    ∃ locals, r.2 = Tool.repl locals :: xt := by
  by_cases hc : (inc.isSome && suffix.isSome) = true
  · simp [_get_prompt_and_tools, hc] at h
  · cases df with
    | listed items =>
      rcases hh : asDataFrames items with _ | dfs <;>
        simp [_get_prompt_and_tools, hc, hh] at h
      exact ⟨dfLocals dfs, by rw [← h]; rfl⟩
    | single obj =>
      cases obj with
      | df d =>
        simp [_get_prompt_and_tools, hc] at h
        exact ⟨[("df", d)], by rw [← h]; rfl⟩
      | other t => simp [_get_prompt_and_tools, hc] at h

/-- Every successful function-call assembly returns exactly the execution
tool (the extra tools are merged later, at the entry point). -/
theorem functions_tools_shape (df : DfArg) (pre suffix : Option String)
    (iv : Option (List String)) (inc : Option Bool) (k : Nat)
    (r : FunctionsPrompt × List Tool)
    (h : _get_functions_prompt_and_tools df pre suffix iv inc k = Except.ok r) :
    ∃ locals, r.2 = [Tool.repl locals] := by
  by_cases hv : iv.isSome = true
  · simp [_get_functions_prompt_and_tools, hv] at h
  · by_cases hc : (inc.isSome && suffix.isSome) = true
    · simp [_get_functions_prompt_and_tools, hv, hc] at h
    · cases df with
      | listed items =>
        rcases hh : asDataFrames items with _ | dfs <;>
          simp [_get_functions_prompt_and_tools, hv, hc, hh] at h
        exact ⟨dfLocals dfs, by rw [← h]; rfl⟩
      | single obj =>
        cases obj with
        | df d =>
          simp [_get_functions_prompt_and_tools, hv, hc] at h
          exact ⟨[("df", d)], by rw [← h]; rfl⟩
        | other t => simp [_get_functions_prompt_and_tools, hv, hc] at h

/-- C8 counterexample: under the legacy function-call protocol, the extra
tools are merged into the tool list before the agent constructor runs, so
the constructed agent already sees the caller's extra tool; they are not
appended only after agent construction. -/
theorem C8_counterexample :
    agentTools (create_pandas_dataframe_agent (DfArg.single (PyObj.df ⟨["x"]⟩))
        AGENT_OPENAI_FUNCTIONS none none none none 5 [Tool.ext 7])
      = [Tool.repl [("df", ⟨["x"]⟩)], Tool.ext 7]
    ∧ Tool.ext 7 ∈ agentTools (create_pandas_dataframe_agent (DfArg.single (PyObj.df ⟨["x"]⟩))
        AGENT_OPENAI_FUNCTIONS none none none none 5 [Tool.ext 7]) := by
  refine ⟨rfl, ?_⟩
  decide

/-- C8 amended: for every protocol and every successful assembly, the final
tool list handed to the execution-loop controller is the dataset-bound
execution tool followed by the caller's extra tools in their given order;
for the function-call protocols the extra tools are merged into the tool
list before agent construction, so the constructed agent receives the same
full list. -/
theorem C8_amended (df : DfArg) (aty : String) (pre suffix : Option String)
    (iv : Option (List String)) (inc : Option Bool) (k : Nat) (xt : List Tool)
    (hp : aty = AGENT_ZERO_SHOT ∨ aty = AGENT_OPENAI_FUNCTIONS ∨ aty = AGENT_OPENAI_TOOLS)
    (hok : isOkB (create_pandas_dataframe_agent df aty pre suffix iv inc k xt) = true) :
    ∃ locals,
      resultTools (create_pandas_dataframe_agent df aty pre suffix iv inc k xt)
        = Tool.repl locals :: xt
      ∧ agentTools (create_pandas_dataframe_agent df aty pre suffix iv inc k xt)
        = Tool.repl locals :: xt := by
  rcases hp with h | h | h <;> subst h
  · rcases hg : _get_prompt_and_tools df pre suffix iv inc k xt with e | r
    · simp [create_pandas_dataframe_agent, hg, isOkB, Except.map] at hok
    · obtain ⟨locals, hl⟩ := text_tools_shape _ _ _ _ _ _ _ _ hg
      exact ⟨locals, by
        simp [create_pandas_dataframe_agent, hg, resultTools, agentTools, hl, Except.map]⟩
  · rcases hg : _get_functions_prompt_and_tools df pre suffix iv inc k with e | r
    · simp [create_pandas_dataframe_agent, AGENT_ZERO_SHOT, AGENT_OPENAI_FUNCTIONS,
        hg, isOkB, Except.map] at hok
    · obtain ⟨locals, hl⟩ := functions_tools_shape _ _ _ _ _ _ _ hg
      exact ⟨locals, by
        simp [create_pandas_dataframe_agent, AGENT_ZERO_SHOT, AGENT_OPENAI_FUNCTIONS,
          hg, resultTools, agentTools, hl, Except.map]⟩
  · rcases hg : _get_functions_prompt_and_tools df pre suffix iv inc k with e | r
    · simp [create_pandas_dataframe_agent, AGENT_ZERO_SHOT, AGENT_OPENAI_FUNCTIONS,
        AGENT_OPENAI_TOOLS, hg, isOkB, Except.map] at hok
    · obtain ⟨locals, hl⟩ := functions_tools_shape _ _ _ _ _ _ _ hg
      exact ⟨locals, by
        simp [create_pandas_dataframe_agent, AGENT_ZERO_SHOT, AGENT_OPENAI_FUNCTIONS,
          AGENT_OPENAI_TOOLS, hg, resultTools, agentTools, hl, Except.map]⟩

/-- C8 witness: a concrete successful zero-shot assembly with one extra tool
has the execution tool first and the extra tool after it, both in the final
list and in the list the agent was constructed over. -/
theorem C8_witness :
    ∃ locals,
      resultTools (create_pandas_dataframe_agent (DfArg.single (PyObj.df ⟨["w"]⟩))
          AGENT_ZERO_SHOT none none none (some true) 5 [Tool.ext 3])
        = Tool.repl locals :: [Tool.ext 3]
      ∧ agentTools (create_pandas_dataframe_agent (DfArg.single (PyObj.df ⟨["w"]⟩))
          AGENT_ZERO_SHOT none none none (some true) 5 [Tool.ext 3])
        = Tool.repl locals :: [Tool.ext 3] :=
  C8_amended (DfArg.single (PyObj.df ⟨["w"]⟩)) AGENT_ZERO_SHOT none none none (some true) 5
    [Tool.ext 3] (Or.inl rfl) (by rfl)

/- ### Claim C9 -/

/-- C9: the include-preview flag of the entry point defaults to the set value
`some true`, not to unset; consequently, for every protocol and every dataset
argument, a call that supplies only a suffix and leaves the flag at its
default fails with the configuration-conflict error, and more generally any
explicitly set flag value (either boolean) together with a suffix is
rejected, so a caller suffix can only take effect when the flag is passed as
unset. -/
theorem C9_default_conflicts (df : DfArg) (pre : Option String) (s : String)
    (k : Nat) (xt : List Tool) :
    includeDfInPromptDefault = some true
    ∧ create_pandas_dataframe_agent df AGENT_ZERO_SHOT pre (some s) none
        includeDfInPromptDefault k xt = Except.error AgentError.configurationConflict
    ∧ create_pandas_dataframe_agent df AGENT_OPENAI_FUNCTIONS pre (some s) none
        includeDfInPromptDefault k xt = Except.error AgentError.configurationConflict
    ∧ create_pandas_dataframe_agent df AGENT_OPENAI_TOOLS pre (some s) none
        includeDfInPromptDefault k xt = Except.error AgentError.configurationConflict
    ∧ (∀ inc : Option Bool, inc.isSome = true →
        create_pandas_dataframe_agent df AGENT_ZERO_SHOT pre (some s) none inc k xt
          = Except.error AgentError.configurationConflict)
    ∧ (∀ inc : Option Bool, inc.isSome = true →
        create_pandas_dataframe_agent df AGENT_OPENAI_FUNCTIONS pre (some s) none inc k xt
          = Except.error AgentError.configurationConflict)
    ∧ (∀ inc : Option Bool, inc.isSome = true →
        create_pandas_dataframe_agent df AGENT_OPENAI_TOOLS pre (some s) none inc k xt
          = Except.error AgentError.configurationConflict) := by
  refine ⟨rfl, ?_, ?_, ?_, fun inc hinc => ?_, fun inc hinc => ?_, fun inc hinc => ?_⟩
  · simp [includeDfInPromptDefault, create_pandas_dataframe_agent, AGENT_ZERO_SHOT,
      AGENT_OPENAI_FUNCTIONS, AGENT_OPENAI_TOOLS, _get_prompt_and_tools,
      _get_functions_prompt_and_tools, Except.map]
  · simp [includeDfInPromptDefault, create_pandas_dataframe_agent, AGENT_ZERO_SHOT,
      AGENT_OPENAI_FUNCTIONS, AGENT_OPENAI_TOOLS, _get_prompt_and_tools,
      _get_functions_prompt_and_tools, Except.map]
  · simp [includeDfInPromptDefault, create_pandas_dataframe_agent, AGENT_ZERO_SHOT,
      AGENT_OPENAI_FUNCTIONS, AGENT_OPENAI_TOOLS, _get_prompt_and_tools,
      _get_functions_prompt_and_tools, Except.map]
  · simp [create_pandas_dataframe_agent, AGENT_ZERO_SHOT, AGENT_OPENAI_FUNCTIONS,
      AGENT_OPENAI_TOOLS, _get_prompt_and_tools, _get_functions_prompt_and_tools,
      hinc, Except.map]
  · simp [create_pandas_dataframe_agent, AGENT_ZERO_SHOT, AGENT_OPENAI_FUNCTIONS,
      AGENT_OPENAI_TOOLS, _get_prompt_and_tools, _get_functions_prompt_and_tools,
      hinc, Except.map]
  · simp [create_pandas_dataframe_agent, AGENT_ZERO_SHOT, AGENT_OPENAI_FUNCTIONS,
      AGENT_OPENAI_TOOLS, _get_prompt_and_tools, _get_functions_prompt_and_tools,
      hinc, Except.map]

/-- C9 witness: the default flag value is `some true`, and a concrete call
with a suffix and an explicitly set flag is rejected with the
configuration-conflict error. -/
theorem C9_witness :
    includeDfInPromptDefault = some true
    ∧ create_pandas_dataframe_agent (DfArg.single (PyObj.df ⟨[]⟩)) AGENT_ZERO_SHOT none
        (some "s") none (some false) 5 [] = Except.error AgentError.configurationConflict := by
  have h := C9_default_conflicts (DfArg.single (PyObj.df ⟨[]⟩)) none "s" 5 []
  exact ⟨h.1, h.2.2.2.2.1 (some false) rfl⟩

/- ### Claim C10 -/

/-- C10: for the text-action protocol with a caller-supplied input-variable
list, the dataset preview is partially bound into the prompt exactly when
the name `df_head` (single-dataset case) or `dfs_head` (multi-dataset case)
is a member of that list; in particular a list omitting the name suppresses
the preview binding even when the include-preview flag is true. -/
theorem C10_preview_iff_member (d : DataFrame) (dfs : List DataFrame) (v : List String)
    (pre : Option String) (inc : Option Bool) (k : Nat) (xt : List Tool) :
    (create_pandas_dataframe_agent (DfArg.single (PyObj.df d)) AGENT_ZERO_SHOT
        pre none (some v) inc k xt).map
      (fun e => (AgentExecutor.promptFilledKeys e).contains "df_head")
      = Except.ok (v.contains "df_head")
    ∧ (create_pandas_dataframe_agent (dfArgOf dfs) AGENT_ZERO_SHOT
        pre none (some v) inc k xt).map
      (fun e => (AgentExecutor.promptFilledKeys e).contains "dfs_head")
      = Except.ok (v.contains "dfs_head") := by
  constructor
  · by_cases hd : "df_head" ∈ v <;>
      simp [create_pandas_dataframe_agent, AGENT_ZERO_SHOT, _get_prompt_and_tools,
        _get_single_prompt, singleSuffixChoice, resolveSingleVars, PromptTemplate.fill,
        AgentExecutor.promptFilledKeys, hd, Except.map]
  · by_cases h1 : "dfs_head" ∈ v <;> by_cases h2 : "num_dfs" ∈ v <;>
      simp [create_pandas_dataframe_agent, AGENT_ZERO_SHOT, _get_prompt_and_tools,
        dfArgOf, asDataFrames_map, _get_multi_prompt, multiSuffixChoice, resolveMultiVars,
        applyMultiPartials, PromptTemplate.fill, AgentExecutor.promptFilledKeys,
        h1, h2, Except.map]

end PandasAgent
